import Mathlib

/-!
Verification of the process-execution core of the `pkg/command` package
(`command.go`): environment merging, pipe setup and start ordering, stream
draining, error wrapping, blocking vs. background execution, and the
streaming output classifier.

The Go code is shallowly embedded: the mutable `*exec.Cmd` becomes the
record `Cmd`, the package-level `Command` struct becomes the record
`Command`, and the outcomes of the OS-level effects (obtaining pipes,
starting the process, waiting, the two drain copies) are pre-determined by
a `World` record so that every function is a pure function of its inputs
and the world.  Errors from `github.com/pkg/errors` (`errors.Wrap`,
`errors.Wrapf`) keep their cause; errors from `fmt.Errorf` with `%v` verbs
are plain messages with no cause, exactly as in Go.
-/

/-- Go error values: either a leaf error (`fmt.Errorf`, or an error produced
by the OS) carrying only a message, or a wrapped error from
`errors.Wrap`/`errors.Wrapf` carrying a context message and its cause. -/
inductive GoError where
  | base (msg : String)
  | wrap (msg : String) (cause : GoError)
  deriving DecidableEq, Repr

/-- The `Error()` string of a Go error; `pkg/errors` renders a wrapped error
as `"msg: cause"`. -/
def GoError.message : GoError → String
  | .base m => m
  | .wrap m c => m ++ ": " ++ c.message

/-- The chain of causes reachable from an error by repeated unwrapping
(`errors.Cause` / `Unwrap`).  A leaf error exposes no cause. -/
def GoError.causes : GoError → List GoError
  | .base _ => []
  | .wrap _ c => c :: c.causes

/-- Rendering of an `error` value by the `%v` verb of `fmt.Errorf`:
a nil error prints `<nil>`, otherwise its `Error()` string. -/
def optErrStr : Option GoError → String
  | none => "<nil>"
  | some e => e.message

/-- An output sink (`io.Writer`): the process-wide standard streams or a
caller-supplied writer. -/
inductive Sink where
  | osStdout
  | osStderr
  | buffer (id : Nat)
  deriving DecidableEq, Repr

/-- The relevant fields of Go's `exec.Cmd`.  `env = none` models a nil
`Env` slice (child inherits the parent environment); `dir = ""` models an
unset working directory; `stdin` is the byte content assigned to
`cmd.Stdin`, if any. -/
structure Cmd where
  path : String
  args : List String
  dir : String
  env : Option (List String)
  stdin : Option String
  deriving DecidableEq, Repr

/-- Model of `exec.Command(name, arg...)`: a fresh `Cmd` with nil `Env`, empty
`Dir` and no `Stdin`. -/
def execCommand (executable : String) (params : List String) : Cmd :=
  { path := executable, args := params, dir := "", env := none, stdin := none }

/-- The `Command` struct of the package: working directory, optional
output sinks (nil writer = unset) and environment override entries. -/
structure Command where
  dir : String
  stdout : Option Sink
  stderr : Option Sink
  env : List String
  deriving DecidableEq, Repr

/-- The zero value of `Command`. -/
def Command.init : Command :=
  { dir := "", stdout := none, stderr := none, env := [] }

/-- Setter `(c *Command) SetDir`. -/
def Command.SetDir (c : Command) (d : String) : Command := { c with dir := d }

/-- Setter `(c *Command) SetEnv`. -/
def Command.SetEnv (c : Command) (e : List String) : Command := { c with env := e }

/-- Setter `(c *Command) Stdout`. -/
def Command.Stdout (c : Command) (s : Sink) : Command := { c with stdout := some s }

/-- Setter `(c *Command) Stderr`. -/
def Command.Stderr (c : Command) (s : Sink) : Command := { c with stderr := some s }

/-- Model of `prepareOut`: substitute the process-wide standard streams for any
sink that is still nil, at launch time. -/
def prepareOut (stdout stderr : Option Sink) : Sink × Sink :=
  (stdout.getD Sink.osStdout, stderr.getD Sink.osStderr)

/-- Model of `appendEnvironment(cmd, env)`: when the override list `env` is
non-empty, first populate `cmd.Env` with the inherited environment
(`os.Environ()`) if it is empty, then append the overrides; when `env` is
empty the command is left untouched. -/
def appendEnvironment (cmd : Cmd) (inherited : List String) (env : List String) : Cmd :=
  if env.length > 0 then
    let base := match cmd.env with
      | none => inherited
      | some l => if l.length = 0 then inherited else l
    { cmd with env := some (base ++ env) }
  else cmd

/-- The environment the child process is created with, per the
`os/exec` contract: a nil `Env` means the child inherits the parent's
environment, otherwise `Env` is used as given. -/
def effectiveEnv (cmd : Cmd) (inherited : List String) : List String :=
  match cmd.env with
  | none => inherited
  | some l => l

/-- Whether the character list `pat` occurs contiguously inside `l`
(Go's `strings.Contains` on the underlying bytes). -/
def listContains (l pat : List Char) : Bool :=
  match l with
  | [] => pat.isEmpty
  | _ :: t => pat.isPrefixOf l || listContains t pat

/-- Go's `strings.Contains(line, pat)`: case-sensitive substring test. -/
def strContains (line pat : String) : Bool :=
  listContains line.data pat.data

/-- The value a child process observes for `key` in an environment entry
list, per the platform contract quoted in `appendEnvironment`'s comment:
when a key occurs several times, only the last value in the slice is
used. -/
def envValue (env : List String) (key : String) : Option String :=
  (env.filterMap (fun s =>
    if (key ++ "=").data.isPrefixOf s.data
    then some (String.mk (s.data.drop (key.length + 1))) else none)).getLast?

/-- Observable events along a launch, used to state ordering invariants:
obtaining each pipe, starting the process, spawning each drain task. -/
inductive Event where
  | getStdoutPipe
  | getStderrPipe
  | start
  | spawnDrainStdout
  | spawnDrainStderr
  deriving DecidableEq, Repr

/-- Pre-determined outcomes of the OS-level effects of one launch: errors
returned by `cmd.StdoutPipe()` / `cmd.StderrPipe()`, by `cmd.Start()`, by
the `Wait` on process exit, and the copy errors recorded by the two drain
goroutines (`io.Copy`). -/
structure World where
  stdoutPipeErr : Option GoError
  stderrPipeErr : Option GoError
  startErr : Option GoError
  waitErr : Option GoError
  copyStdoutErr : Option GoError
  copyStderrErr : Option GoError
  deriving DecidableEq, Repr

/-- A world in which every OS-level effect succeeds. -/
def World.ok : World :=
  { stdoutPipeErr := none, stderrPipeErr := none, startErr := none,
    waitErr := none, copyStdoutErr := none, copyStderrErr := none }

/-- The `execution` struct: the started command plus the sinks its two
drain tasks copy into (the recorded copy errors live in the `World`). -/
structure Execution where
  cmd : Cmd
  outSink : Sink
  errSink : Sink
  deriving DecidableEq, Repr

/-- Model of `cmdPipes(cmd)`: obtain the stdout pipe, then the stderr pipe, each
failure wrapped with which pipe failed.  Returns the events that occurred
and the error, if any. -/
def cmdPipes (w : World) : List Event × Option GoError :=
  match w.stdoutPipeErr with
  | some e => ([Event.getStdoutPipe], some (.wrap "getting Stdout pipe failed" e))
  | none =>
    match w.stderrPipeErr with
    | some e => ([Event.getStdoutPipe, Event.getStderrPipe],
                 some (.wrap "getting Stderr pipe failed" e))
    | none => ([Event.getStdoutPipe, Event.getStderrPipe], none)

/-- Model of `startCmd(cmd, _out, _err)`: obtain both pipes (failure: wrapped
"getting command pipes failed", process not started), then `cmd.Start()`
(failure: wrapped "starting command failed"), then spawn the two drain
goroutines and return the execution handle.  The event list records what
happened in order. -/
def startCmd (cmd : Cmd) (outS errS : Sink) (w : World) :
    List Event × Except GoError Execution :=
  let p := cmdPipes w
  match p.2 with
  | some e => (p.1, .error (.wrap "getting command pipes failed" e))
  | none =>
    match w.startErr with
    | some e => (p.1 ++ [Event.start], .error (.wrap "starting command failed" e))
    | none =>
      (p.1 ++ [Event.start, Event.spawnDrainStdout, Event.spawnDrainStderr],
       .ok { cmd := cmd, outSink := outS, errSink := errS })

/-- Modelled from the spec: the `execution.Wait` method is not part of the
inspected sources (only its call sites are).  Per the spec, the join first
waits for both drain tasks to finish and for process exit, and returns the
process exit error; the recorded copy errors become readable afterwards. -/
def executionWait (w : World) : Option GoError :=
  w.waitErr

/-- Model of `runCmd(cmd, _out, _err)`: start, wait, then aggregate: if either
drain recorded a copy error, fail with a `fmt.Errorf` message quoting both
copy errors via `%v`; otherwise wrap a non-nil exit error as
"cmd.Run() failed". -/
def runCmd (cmd : Cmd) (outS errS : Sink) (w : World) : Option GoError :=
  match (startCmd cmd outS errS w).2 with
  | .error e => some e
  | .ok _ =>
    let err := executionWait w
    if w.copyStdoutErr.isSome || w.copyStderrErr.isSome then
      some (.base ("failed to capture stdout/stderr: '" ++ optErrStr w.copyStdoutErr
        ++ "'/'" ++ optErrStr w.copyStderrErr ++ "'"))
    else
      match err with
      | some e => some (.wrap "cmd.Run() failed" e)
      | none => none

/-- The configuration a run hands to `startCmd`/`runCmd`: the fully built
`Cmd` and the two resolved sinks.  Returned by the run functions as an
observation of what was launched. -/
structure Launch where
  cmd : Cmd
  outSink : Sink
  errSink : Sink
  deriving DecidableEq, Repr

/-- Model of `(c *Command) RunShell(shell, script)`: resolve sinks, build
`ExecCommand(shell)` (no arguments), apply the working directory and the
environment overrides, feed `script` to stdin, run, and wrap any failure
with the shell.  The configured launch is returned alongside the result as
an observation. -/
def Command.RunShell (c : Command) (shell script : String)
    (inherited : List String) (w : World) : Launch × Option GoError :=
  let os := prepareOut c.stdout c.stderr
  let cmd := execCommand shell []
  let cmd := if c.dir.length > 0 then { cmd with dir := c.dir } else cmd
  let cmd := appendEnvironment cmd inherited c.env
  let cmd := { cmd with stdin := some script }
  (⟨cmd, os.1, os.2⟩,
   match runCmd cmd os.1 os.2 w with
   | some e => some (.wrap ("running shell script failed with " ++ shell) e)
   | none => none)

/-- Model of `(c *Command) RunExecutable(executable, params...)`: resolve sinks,
build `ExecCommand(executable, params...)`, apply the working directory
and the environment overrides, run, and wrap any failure with the
executable name.  The configured launch is returned alongside the result
as an observation. -/
def Command.RunExecutable (c : Command) (executable : String) (params : List String)
    (inherited : List String) (w : World) : Launch × Option GoError :=
  let os := prepareOut c.stdout c.stderr
  let cmd := execCommand executable params
  let cmd := if c.dir.length > 0 then { cmd with dir := c.dir } else cmd
  let cmd := appendEnvironment cmd inherited c.env
  (⟨cmd, os.1, os.2⟩,
   match runCmd cmd os.1 os.2 w with
   | some e => some (.wrap ("running command '" ++ executable ++ "' failed") e)
   | none => none)

/-- Model of `(c *Command) RunExecutableInBackground(executable, params...)`: the
same configuration steps as `RunExecutable`, then `startCmd` only; on a
start failure the handle is nil and the error is wrapped with the
executable name.  The configured launch is returned as an observation. -/
def Command.RunExecutableInBackground (c : Command) (executable : String)
    (params : List String) (inherited : List String) (w : World) :
    Launch × Option Execution × Option GoError :=
  let os := prepareOut c.stdout c.stderr
  let cmd := execCommand executable params
  let cmd := if c.dir.length > 0 then { cmd with dir := c.dir } else cmd
  let cmd := appendEnvironment cmd inherited c.env
  (⟨cmd, os.1, os.2⟩,
   match (startCmd cmd os.1 os.2 w).2 with
   | .error e => (none, some (.wrap ("starting command '" ++ executable ++ "' failed") e))
   | .ok ex => (some ex, none))

/-- Modelled from the spec: the join operation of the execution handle is
not part of the inspected sources.  Per the spec it waits for process exit
and for both drain tasks, and only then is the aggregated result (exit
error plus any copy errors) available; the aggregation itself is the one
the blocking path performs after `Wait`. -/
def executionJoin (_ex : Execution) (w : World) : Option GoError :=
  let err := executionWait w
  if w.copyStdoutErr.isSome || w.copyStderrErr.isSome then
    some (.base ("failed to capture stdout/stderr: '" ++ optErrStr w.copyStdoutErr
      ++ "'/'" ++ optErrStr w.copyStderrErr ++ "'"))
  else
    match err with
    | some e => some (.wrap "cmd.Run() failed" e)
    | none => none

/-- Follows the spec's words, for comparison with `runCmd`: the blocking
run is the non-blocking start primitive followed immediately by the join
operation on the returned handle. -/
def startThenJoin (cmd : Cmd) (outS errS : Sink) (w : World) : Option GoError :=
  match (startCmd cmd outS errS w).2 with
  | .error e => some e
  | .ok ex => executionJoin ex w

/-- Modelled from the spec: the error-category enumeration of the `log`
package (not part of the inspected sources): `Undefined` plus named
categories such as Configuration and Build; kept open via `custom`. -/
inductive ErrorCategory where
  | undefined
  | configuration
  | build
  | custom (label : String)
  deriving DecidableEq, Repr

/-- Modelled from the spec: the translation from a mapping label to the
category value set on a match, as exercised by the tests ("config" →
Configuration, "build" → Build). -/
def categoryForLabel : String → ErrorCategory
  | "config" => ErrorCategory.configuration
  | "build" => ErrorCategory.build
  | l => ErrorCategory.custom l

/-- Modelled from the spec: `parseConsoleErrors` is not part of the
inspected sources (only its tests are).  For one observed line, each
category's patterns are tested as case-sensitive substring matches in the
mapping's iteration order (modelled as the association-list order); the
first matching category updates the shared signal, and a line matching no
pattern leaves the signal unchanged. -/
def parseConsoleErrors (mapping : List (String × List String)) (line : String)
    (signal : ErrorCategory) : ErrorCategory :=
  match mapping.find? (fun p => p.2.any (fun pat => strContains line pat)) with
  | some p => categoryForLabel p.1
  | none => signal

/-- The shared category signal after a sequence of observed lines, starting
from its default `undefined`: each line is classified in order and the
signal is sticky across non-matching lines. -/
def classifyLines (mapping : List (String × List String)) (lines : List String) :
    ErrorCategory :=
  lines.foldl (fun sig line => parseConsoleErrors mapping line sig) ErrorCategory.undefined

/-- Checker for the launch-ordering invariant: if a start event occurs in
the trace, both pipe-attachment events occur strictly before the first
start event and no pipe-attachment event occurs from the first start event
on. -/
def pipesBeforeStartB (tr : List Event) : Bool :=
  !(tr.contains Event.start) ||
    ((tr.takeWhile (fun x => x != Event.start)).contains Event.getStdoutPipe &&
     (tr.takeWhile (fun x => x != Event.start)).contains Event.getStderrPipe &&
     !((tr.dropWhile (fun x => x != Event.start)).contains Event.getStdoutPipe) &&
     !((tr.dropWhile (fun x => x != Event.start)).contains Event.getStderrPipe))

/-! ## Helper lemmas -/

theorem isPrefixOf_append_self (pat c : List Char) : pat.isPrefixOf (pat ++ c) = true := by
  induction pat with
  | nil =>
    rw [List.nil_append]
    cases c <;> rfl
  | cons h t ih =>
    rw [List.cons_append]
    simp [List.isPrefixOf, ih]

theorem listContains_of_isPrefixOf (l pat : List Char) (h : pat.isPrefixOf l = true) :
    listContains l pat = true := by
  cases l with
  | nil =>
    cases pat with
    | nil => rfl
    | cons x xs => simp [List.isPrefixOf] at h
  | cons x xs =>
    unfold listContains
    simp [h]

theorem listContains_append_pat (a c pat : List Char) :
    listContains (a ++ (pat ++ c)) pat = true := by
  induction a with
  | nil =>
    simp only [List.nil_append]
    exact listContains_of_isPrefixOf _ _ (isPrefixOf_append_self pat c)
  | cons h t ih =>
    unfold listContains
    simp [ih]

theorem strContains_of_data (s pat : String) (pre suf : List Char)
    (h : s.data = pre ++ (pat.data ++ suf)) : strContains s pat = true := by
  unfold strContains
  rw [h]
  exact listContains_append_pat pre suf pat.data

theorem getLast?_append_or {α : Type _} (l₁ l₂ : List α) :
    (l₁ ++ l₂).getLast? = l₂.getLast?.or l₁.getLast? := by
  cases l₂ with
  | nil => simp [Option.none_or]
  | cons x xs =>
    rw [List.getLast?_append_of_ne_nil _ (List.cons_ne_nil x xs)]
    rcases ho : (x :: xs).getLast? with _ | y
    · have hs : (x :: xs).getLast?.isSome := List.getLast?_isSome.mpr (List.cons_ne_nil x xs)
      rw [ho] at hs
      simp at hs
    · rfl

theorem envValue_append (l₁ l₂ : List String) (k : String) :
    envValue (l₁ ++ l₂) k = (envValue l₂ k).or (envValue l₁ k) := by
  unfold envValue
  rw [List.filterMap_append, getLast?_append_or]

theorem envEntry_key_match (k v : String) :
    (k ++ "=").data.isPrefixOf (k ++ "=" ++ v).data = true := by
  rw [String.data_append]
  exact isPrefixOf_append_self _ _

theorem envEntry_drop (k v : String) :
    ((k ++ "=" ++ v).data).drop (k.length + 1) = v.data := by
  have h1 : (k ++ "=" ++ v).data = (k.data ++ ['=']) ++ v.data := by
    simp [String.data_append]
  have h2 : k.length + 1 = (k.data ++ ['=']).length := by simp
  rw [h1, h2, List.drop_left]

theorem envValue_last_occurrence (pre suf : List String) (k v : String)
    (hsuf : ∀ s ∈ suf, (k ++ "=").data.isPrefixOf s.data = false) :
    envValue (pre ++ (k ++ "=" ++ v) :: suf) k = some v := by
  unfold envValue
  rw [List.filterMap_append, List.filterMap_cons]
  have hx : (if (k ++ "=").data.isPrefixOf (k ++ "=" ++ v).data
      then some (String.mk ((k ++ "=" ++ v).data.drop (k.length + 1))) else none) = some v := by
    rw [envEntry_drop]
    simp [envEntry_key_match]
  rw [hx]
  have hnil : suf.filterMap (fun s =>
      if (k ++ "=").data.isPrefixOf s.data
      then some (String.mk (s.data.drop (k.length + 1))) else none) = [] := by
    rw [List.filterMap_eq_nil_iff]
    intro a ha
    rw [hsuf a ha]
    simp
  rw [hnil]
  exact List.getLast?_concat _

theorem envValue_nil (k : String) : envValue [] k = none := rfl

/-! ## Claims -/

/-- C1: for every inherited environment `I` and caller override list `E`
applied to a freshly created command, the effective child environment is
exactly `I` when `E` is empty and `I ++ E` when `E` is non-empty; an
override value present in `E` wins over `I`, a key absent from `E` keeps
its inherited value, and for a key occurring more than once the last
positional occurrence supplies the value seen by the child. -/
theorem env_merge_inherited_then_overrides (I E : List String)
    (executable : String) (params : List String) :
    (E = [] → effectiveEnv (appendEnvironment (execCommand executable params) I E) I = I) ∧
    (E ≠ [] → effectiveEnv (appendEnvironment (execCommand executable params) I E) I = I ++ E) ∧
    (∀ k v, envValue E k = some v →
      envValue (effectiveEnv (appendEnvironment (execCommand executable params) I E) I) k
        = some v) ∧
    (∀ k, envValue E k = none →
      envValue (effectiveEnv (appendEnvironment (execCommand executable params) I E) I) k
        = envValue I k) ∧
    (∀ pre suf k v,
      effectiveEnv (appendEnvironment (execCommand executable params) I E) I
        = pre ++ (k ++ "=" ++ v) :: suf →
      (∀ s ∈ suf, (k ++ "=").data.isPrefixOf s.data = false) →
      envValue (effectiveEnv (appendEnvironment (execCommand executable params) I E) I) k
        = some v) := by
  rcases E with _ | ⟨e0, es⟩
  · refine ⟨fun _ => rfl, fun h => absurd rfl h, ?_, ?_, ?_⟩
    · intro k v hv
      rw [envValue_nil] at hv
      exact absurd hv (by simp)
    · intro k _
      rfl
    · intro pre suf k v heq hsuf
      rw [heq]
      exact envValue_last_occurrence pre suf k v hsuf
  · have heff : effectiveEnv (appendEnvironment (execCommand executable params) I (e0 :: es)) I
        = I ++ (e0 :: es) := by
      simp [appendEnvironment, execCommand, effectiveEnv]
    refine ⟨fun h => by simp at h, fun _ => heff, ?_, ?_, ?_⟩
    · intro k v hv
      rw [heff, envValue_append, hv]
      rfl
    · intro k hk
      rw [heff, envValue_append, hk, Option.none_or]
    · intro pre suf k v heq hsuf
      rw [heq]
      exact envValue_last_occurrence pre suf k v hsuf

/-- Witness for C1 at a concrete input: inherited `PATH`/`DEBUG`, override
`DEBUG=true`; the child sees the concatenation and the override value. -/
theorem env_merge_witness :
    effectiveEnv (appendEnvironment (execCommand "env" []) ["PATH=/bin", "DEBUG=false"]
        ["DEBUG=true"]) ["PATH=/bin", "DEBUG=false"]
      = ["PATH=/bin", "DEBUG=false", "DEBUG=true"] ∧
    envValue (effectiveEnv (appendEnvironment (execCommand "env" [])
        ["PATH=/bin", "DEBUG=false"] ["DEBUG=true"]) ["PATH=/bin", "DEBUG=false"]) "DEBUG"
      = some "true" :=
  ⟨(env_merge_inherited_then_overrides ["PATH=/bin", "DEBUG=false"] ["DEBUG=true"]
      "env" []).2.1 (by decide),
   (env_merge_inherited_then_overrides ["PATH=/bin", "DEBUG=false"] ["DEBUG=true"]
      "env" []).2.2.2.2 ["PATH=/bin", "DEBUG=false"] [] "DEBUG" "true" (by decide)
      (by intro s hs; simp at hs)⟩

/-- C10: when the command object's environment slice is already non-empty
(e.g. pre-populated by an injected launcher) and the override list is
non-empty, the inherited process environment is not consulted at all: the
result is the pre-existing slice followed by the overrides, independent of
the inherited environment. -/
theorem append_env_prepopulated_ignores_inherited (cmd : Cmd) (pre I J E : List String)
    (henv : cmd.env = some pre) (hpre : pre ≠ []) (hE : E ≠ []) :
    appendEnvironment cmd I E = { cmd with env := some (pre ++ E) } ∧
    appendEnvironment cmd I E = appendEnvironment cmd J E ∧
    effectiveEnv (appendEnvironment cmd I E) I = pre ++ E := by
  have hlen : E.length > 0 := List.length_pos.mpr hE
  have hplen : ¬ pre.length = 0 := by
    simp [List.length_eq_zero]
    exact hpre
  have hmain : appendEnvironment cmd I E = { cmd with env := some (pre ++ E) } := by
    unfold appendEnvironment
    rw [if_pos hlen, henv]
    simp only [if_neg hplen]
  refine ⟨hmain, ?_, ?_⟩
  · have hmain' : appendEnvironment cmd J E = { cmd with env := some (pre ++ E) } := by
      unfold appendEnvironment
      rw [if_pos hlen, henv]
      simp only [if_neg hplen]
    rw [hmain, hmain']
  · rw [hmain]
    rfl

/-- Witness for C10: the injected test launcher pre-populates the command
environment with `GO_WANT_HELPER_PROCESS=1`; with override `DEBUG=true`
the child sees exactly those two entries, whatever the parent environment
held. -/
theorem append_env_prepopulated_witness :
    effectiveEnv (appendEnvironment
        { path := "env", args := [], dir := "", env := some ["GO_WANT_HELPER_PROCESS=1"],
          stdin := none } ["HOME=/root", "PATH=/bin"] ["DEBUG=true"]) ["HOME=/root", "PATH=/bin"]
      = ["GO_WANT_HELPER_PROCESS=1", "DEBUG=true"] :=
  (append_env_prepopulated_ignores_inherited
    { path := "env", args := [], dir := "", env := some ["GO_WANT_HELPER_PROCESS=1"],
      stdin := none } ["GO_WANT_HELPER_PROCESS=1"] ["HOME=/root", "PATH=/bin"] []
    ["DEBUG=true"] rfl (by decide) (by decide)).2.2

/-- C4: in every launch the pipe-attachment events occur strictly before
the start event, and when obtaining either pipe fails the run fails with
the wrapped pipe-setup error, with the process never started and no drain
task spawned (and hence no handle returned). -/
theorem pipes_attached_before_start (cmd : Cmd) (outS errS : Sink) (w : World) :
    pipesBeforeStartB (startCmd cmd outS errS w).1 = true ∧
    ((w.stdoutPipeErr.isSome ∨ w.stderrPipeErr.isSome) →
      (∃ e, (startCmd cmd outS errS w).2 = .error (.wrap "getting command pipes failed" e)) ∧
      Event.start ∉ (startCmd cmd outS errS w).1 ∧
      Event.spawnDrainStdout ∉ (startCmd cmd outS errS w).1 ∧
      Event.spawnDrainStderr ∉ (startCmd cmd outS errS w).1) := by
  rcases h1 : w.stdoutPipeErr with _ | e1
  · rcases h2 : w.stderrPipeErr with _ | e2
    · rcases h3 : w.startErr with _ | e3
      · have ht : (startCmd cmd outS errS w).1 =
            [Event.getStdoutPipe, Event.getStderrPipe, Event.start,
             Event.spawnDrainStdout, Event.spawnDrainStderr] := by
          simp [startCmd, cmdPipes, h1, h2, h3]
        refine ⟨by rw [ht]; decide, ?_⟩
        intro h
        simp at h
      · have ht : (startCmd cmd outS errS w).1 =
            [Event.getStdoutPipe, Event.getStderrPipe, Event.start] := by
          simp [startCmd, cmdPipes, h1, h2, h3]
        refine ⟨by rw [ht]; decide, ?_⟩
        intro h
        simp at h
    · have ht : (startCmd cmd outS errS w).1 =
          [Event.getStdoutPipe, Event.getStderrPipe] := by
        simp [startCmd, cmdPipes, h1, h2]
      have hr : (startCmd cmd outS errS w).2 =
          .error (.wrap "getting command pipes failed" (.wrap "getting Stderr pipe failed" e2)) := by
        simp [startCmd, cmdPipes, h1, h2]
      refine ⟨by rw [ht]; decide, ?_⟩
      intro _
      exact ⟨⟨.wrap "getting Stderr pipe failed" e2, hr⟩,
        by rw [ht]; decide, by rw [ht]; decide, by rw [ht]; decide⟩
  · have ht : (startCmd cmd outS errS w).1 = [Event.getStdoutPipe] := by
      simp [startCmd, cmdPipes, h1]
    have hr : (startCmd cmd outS errS w).2 =
        .error (.wrap "getting command pipes failed" (.wrap "getting Stdout pipe failed" e1)) := by
      simp [startCmd, cmdPipes, h1]
    refine ⟨by rw [ht]; decide, ?_⟩
    intro _
    exact ⟨⟨.wrap "getting Stdout pipe failed" e1, hr⟩,
      by rw [ht]; decide, by rw [ht]; decide, by rw [ht]; decide⟩

/-- Witness for C4: a world whose stdout pipe cannot be obtained; the run
fails with the wrapped pipe error and the process is never started. -/
theorem pipes_attached_before_start_witness :
    (∃ e, (startCmd (execCommand "go" ["build"]) Sink.osStdout Sink.osStderr
        { World.ok with stdoutPipeErr := some (GoError.base "pipe exhausted") }).2
      = .error (.wrap "getting command pipes failed" e)) ∧
    Event.start ∉ (startCmd (execCommand "go" ["build"]) Sink.osStdout Sink.osStderr
        { World.ok with stdoutPipeErr := some (GoError.base "pipe exhausted") }).1 :=
  ⟨((pipes_attached_before_start (execCommand "go" ["build"]) Sink.osStdout Sink.osStderr
      { World.ok with stdoutPipeErr := some (GoError.base "pipe exhausted") }).2
      (Or.inl (by decide))).1,
   ((pipes_attached_before_start (execCommand "go" ["build"]) Sink.osStdout Sink.osStderr
      { World.ok with stdoutPipeErr := some (GoError.base "pipe exhausted") }).2
      (Or.inl (by decide))).2.1⟩

theorem startCmd_ok (cmd : Cmd) (outS errS : Sink) (w : World)
    (h1 : w.stdoutPipeErr = none) (h2 : w.stderrPipeErr = none) (h3 : w.startErr = none) :
    (startCmd cmd outS errS w).2 = .ok { cmd := cmd, outSink := outS, errSink := errS } := by
  simp [startCmd, cmdPipes, h1, h2, h3]

theorem startCmd_start_error (cmd : Cmd) (outS errS : Sink) (w : World) (e : GoError)
    (h1 : w.stdoutPipeErr = none) (h2 : w.stderrPipeErr = none) (h3 : w.startErr = some e) :
    (startCmd cmd outS errS w).2 = .error (.wrap "starting command failed" e) := by
  simp [startCmd, cmdPipes, h1, h2, h3]

theorem runCmd_copy_branch (cmd : Cmd) (outS errS : Sink) (w : World)
    (h1 : w.stdoutPipeErr = none) (h2 : w.stderrPipeErr = none) (h3 : w.startErr = none)
    (hcb : (w.copyStdoutErr.isSome || w.copyStderrErr.isSome) = true) :
    runCmd cmd outS errS w =
      some (GoError.base ("failed to capture stdout/stderr: '" ++ optErrStr w.copyStdoutErr
        ++ "'/'" ++ optErrStr w.copyStderrErr ++ "'")) := by
  unfold runCmd
  rw [startCmd_ok cmd outS errS w h1 h2 h3]
  simp [hcb]

theorem runCmd_wait_branch (cmd : Cmd) (outS errS : Sink) (w : World) (e : GoError)
    (h1 : w.stdoutPipeErr = none) (h2 : w.stderrPipeErr = none) (h3 : w.startErr = none)
    (hc1 : w.copyStdoutErr = none) (hc2 : w.copyStderrErr = none)
    (hw : w.waitErr = some e) :
    runCmd cmd outS errS w = some (.wrap "cmd.Run() failed" e) := by
  unfold runCmd
  rw [startCmd_ok cmd outS errS w h1 h2 h3]
  simp [executionWait, hc1, hc2, hw]

/-- Counterexample to C2 as stated: in the concrete world where the stdout
drain fails with "read failed" and the process exits with "exit status 1",
the returned error is a bare formatted message; the process exit status is
not reported with it, and neither underlying error is inspectable from it
(its cause chain is empty). -/
theorem runCmd_copy_error_counterexample :
    runCmd (execCommand "go" ["build"]) Sink.osStdout Sink.osStderr
        { World.ok with
          waitErr := some (GoError.base "exit status 1")
          copyStdoutErr := some (GoError.base "read failed") }
      = some (GoError.base "failed to capture stdout/stderr: 'read failed'/'<nil>'") ∧
    GoError.base "exit status 1"
      ∉ (GoError.base "failed to capture stdout/stderr: 'read failed'/'<nil>'").causes ∧
    GoError.base "read failed"
      ∉ (GoError.base "failed to capture stdout/stderr: 'read failed'/'<nil>'").causes ∧
    strContains (GoError.base "failed to capture stdout/stderr: 'read failed'/'<nil>'").message
        "exit status 1" = false := by
  refine ⟨by decide, by decide, by decide, by decide⟩

/-- C2 as amended: when a drain copy error occurs after a successful
start, the run fails with the `fmt.Errorf` message quoting both streams'
copy errors (`<nil>` for an absent one); the process exit error is
discarded (the result does not depend on it), and the copy errors are kept
only as formatted text: the returned error exposes no cause chain. -/
theorem runCmd_stream_copy_failure (cmd : Cmd) (outS errS : Sink) (w : World)
    (h1 : w.stdoutPipeErr = none) (h2 : w.stderrPipeErr = none) (h3 : w.startErr = none)
    (hcopy : w.copyStdoutErr.isSome ∨ w.copyStderrErr.isSome) :
    runCmd cmd outS errS w =
      some (GoError.base ("failed to capture stdout/stderr: '" ++ optErrStr w.copyStdoutErr
        ++ "'/'" ++ optErrStr w.copyStderrErr ++ "'")) ∧
    runCmd cmd outS errS w = runCmd cmd outS errS { w with waitErr := none } ∧
    (∀ e, runCmd cmd outS errS w = some e → e.causes = []) := by
  have hcb : (w.copyStdoutErr.isSome || w.copyStderrErr.isSome) = true := by
    rcases hcopy with h | h <;> simp [h]
  have hmain := runCmd_copy_branch cmd outS errS w h1 h2 h3 hcb
  refine ⟨hmain, ?_, ?_⟩
  · rw [hmain, runCmd_copy_branch cmd outS errS { w with waitErr := none } h1 h2 h3 hcb]
  · intro e he
    rw [hmain] at he
    cases he
    rfl

/-- Witness for the amended C2 at the same concrete world. -/
theorem runCmd_stream_copy_failure_witness :
    runCmd (execCommand "go" ["build"]) Sink.osStdout Sink.osStderr
        { World.ok with
          waitErr := some (GoError.base "exit status 1")
          copyStdoutErr := some (GoError.base "read failed") }
      = some (GoError.base "failed to capture stdout/stderr: 'read failed'/'<nil>'") :=
  (runCmd_stream_copy_failure (execCommand "go" ["build"]) Sink.osStdout Sink.osStderr
    { World.ok with
      waitErr := some (GoError.base "exit status 1")
      copyStdoutErr := some (GoError.base "read failed") }
    rfl rfl rfl (Or.inl (by decide))).1

/-- Counterexample to C3 as stated: running `echo` with arguments
`["foo bar", "baz"]` in a world where the process exits nonzero returns an
error wrapped with the executable name only; neither argument appears
anywhere in the returned error, so the failure is not wrapped with the
arguments. -/
theorem runExecutable_args_not_wrapped_counterexample :
    (Command.init.RunExecutable "echo" ["foo bar", "baz"] []
        { World.ok with waitErr := some (GoError.base "exit status 1") }).2
      = some (GoError.wrap "running command 'echo' failed"
          (GoError.wrap "cmd.Run() failed" (GoError.base "exit status 1"))) ∧
    (Command.init.RunExecutable "echo" ["foo bar", "baz"] []
        { World.ok with waitErr := some (GoError.base "exit status 1") }).1.cmd.args
      = ["foo bar", "baz"] ∧
    strContains (GoError.wrap "running command 'echo' failed"
        (GoError.wrap "cmd.Run() failed" (GoError.base "exit status 1"))).message
      "foo bar" = false ∧
    strContains (GoError.wrap "running command 'echo' failed"
        (GoError.wrap "cmd.Run() failed" (GoError.base "exit status 1"))).message
      "baz" = false := by
  refine ⟨by decide, by decide, by decide, by decide⟩

/-- C3 as amended: a completed run with nonzero exit status fails wrapped
with the executable name only (the arguments are not part of the wrapping,
nor is the raw output), and the underlying exit error is preserved as an
inspectable cause. -/
theorem runExecutable_nonzero_exit (c : Command) (executable : String)
    (params inh : List String) (w : World) (e : GoError)
    (h1 : w.stdoutPipeErr = none) (h2 : w.stderrPipeErr = none) (h3 : w.startErr = none)
    (hc1 : w.copyStdoutErr = none) (hc2 : w.copyStderrErr = none)
    (hw : w.waitErr = some e) :
    (c.RunExecutable executable params inh w).2 =
      some (.wrap ("running command '" ++ executable ++ "' failed")
        (.wrap "cmd.Run() failed" e)) ∧
    (∀ e', (c.RunExecutable executable params inh w).2 = some e' →
      e ∈ e'.causes ∧ strContains e'.message executable = true) := by
  have hrc : ∀ cmd₂ : Cmd, ∀ oS eS : Sink,
      runCmd cmd₂ oS eS w = some (.wrap "cmd.Run() failed" e) :=
    fun cmd₂ oS eS => runCmd_wait_branch cmd₂ oS eS w e h1 h2 h3 hc1 hc2 hw
  have hmain : (c.RunExecutable executable params inh w).2 =
      some (.wrap ("running command '" ++ executable ++ "' failed")
        (.wrap "cmd.Run() failed" e)) := by
    simp only [Command.RunExecutable, hrc]
  refine ⟨hmain, ?_⟩
  intro e' he'
  rw [hmain] at he'
  cases he'
  constructor
  · simp [GoError.causes]
  · apply strContains_of_data _ _ ("running command '".data)
      ("' failed".data ++ ": ".data ++ "cmd.Run() failed".data ++ ": ".data ++ e.message.data)
    simp [GoError.message, String.data_append, List.append_assoc]

/-- Witness for the amended C3 at a concrete input. -/
theorem runExecutable_nonzero_exit_witness :
    (Command.init.RunExecutable "git" ["status"] []
        { World.ok with waitErr := some (GoError.base "exit status 128") }).2
      = some (GoError.wrap "running command 'git' failed"
          (GoError.wrap "cmd.Run() failed" (GoError.base "exit status 128"))) :=
  (runExecutable_nonzero_exit Command.init "git" ["status"] []
    { World.ok with waitErr := some (GoError.base "exit status 128") }
    (GoError.base "exit status 128") rfl rfl rfl rfl rfl rfl).1

/-- C6: when the process cannot be created, the background launch returns
no handle (nil) together with the start failure wrapped with the
executable name, and the underlying launch error is preserved as an
inspectable cause. -/
theorem background_start_failure (c : Command) (executable : String)
    (params inh : List String) (w : World) (e : GoError)
    (h1 : w.stdoutPipeErr = none) (h2 : w.stderrPipeErr = none)
    (h3 : w.startErr = some e) :
    (c.RunExecutableInBackground executable params inh w).2.1 = none ∧
    (c.RunExecutableInBackground executable params inh w).2.2 =
      some (.wrap ("starting command '" ++ executable ++ "' failed")
        (.wrap "starting command failed" e)) ∧
    (∀ e', (c.RunExecutableInBackground executable params inh w).2.2 = some e' →
      e ∈ e'.causes ∧ strContains e'.message executable = true) := by
  have hst : ∀ cmd₂ : Cmd, ∀ oS eS : Sink,
      (startCmd cmd₂ oS eS w).2 = .error (.wrap "starting command failed" e) :=
    fun cmd₂ oS eS => startCmd_start_error cmd₂ oS eS w e h1 h2 h3
  have hnone : (c.RunExecutableInBackground executable params inh w).2.1 = none := by
    simp only [Command.RunExecutableInBackground, hst]
  have hmain : (c.RunExecutableInBackground executable params inh w).2.2 =
      some (.wrap ("starting command '" ++ executable ++ "' failed")
        (.wrap "starting command failed" e)) := by
    simp only [Command.RunExecutableInBackground, hst]
  refine ⟨hnone, hmain, ?_⟩
  intro e' he'
  rw [hmain] at he'
  cases he'
  constructor
  · simp [GoError.causes]
  · apply strContains_of_data _ _ ("starting command '".data)
      ("' failed".data ++ ": ".data ++ "starting command failed".data ++ ": ".data
        ++ e.message.data)
    simp [GoError.message, String.data_append, List.append_assoc]

/-- Witness for C6: launching a nonexistent executable in a world where
`cmd.Start()` reports it; the handle is nil and the failure names the
executable. -/
theorem background_start_failure_witness :
    (Command.init.RunExecutableInBackground "doesnotexist" [] []
        { World.ok with
          startErr := some (GoError.base "exec: doesnotexist: executable file not found") }).2.1
      = none ∧
    (Command.init.RunExecutableInBackground "doesnotexist" [] []
        { World.ok with
          startErr := some (GoError.base "exec: doesnotexist: executable file not found") }).2.2
      = some (GoError.wrap "starting command 'doesnotexist' failed"
          (GoError.wrap "starting command failed"
            (GoError.base "exec: doesnotexist: executable file not found"))) :=
  ⟨(background_start_failure Command.init "doesnotexist" [] []
      { World.ok with
        startErr := some (GoError.base "exec: doesnotexist: executable file not found") }
      (GoError.base "exec: doesnotexist: executable file not found") rfl rfl rfl).1,
   (background_start_failure Command.init "doesnotexist" [] []
      { World.ok with
        startErr := some (GoError.base "exec: doesnotexist: executable file not found") }
      (GoError.base "exec: doesnotexist: executable file not found") rfl rfl rfl).2.1⟩

theorem appendEnvironment_path (cmd : Cmd) (i e : List String) :
    (appendEnvironment cmd i e).path = cmd.path := by
  unfold appendEnvironment
  split <;> rfl

theorem appendEnvironment_args (cmd : Cmd) (i e : List String) :
    (appendEnvironment cmd i e).args = cmd.args := by
  unfold appendEnvironment
  split <;> rfl

/-- C5: the blocking run is the composition of the non-blocking start
primitive and the join operation: the blocking and background entry points
configure the identical launch (same command, same drains), the blocking
core equals start-then-join on every input, and `RunShell` is the same
composition under its own error wrapping. -/
theorem blocking_is_start_then_join (c : Command) (executable : String)
    (params inh : List String) (w : World) :
    (c.RunExecutable executable params inh w).1 =
      (c.RunExecutableInBackground executable params inh w).1 ∧
    (∀ (cm : Cmd) (oS eS : Sink) (w' : World),
      runCmd cm oS eS w' = startThenJoin cm oS eS w') ∧
    (∀ shell script : String,
      (c.RunShell shell script inh w).2 =
        match startThenJoin (c.RunShell shell script inh w).1.cmd
            (c.RunShell shell script inh w).1.outSink
            (c.RunShell shell script inh w).1.errSink w with
        | some e => some (.wrap ("running shell script failed with " ++ shell) e)
        | none => none) := by
  have hjoin : ∀ (cm : Cmd) (oS eS : Sink) (w' : World),
      runCmd cm oS eS w' = startThenJoin cm oS eS w' := by
    intro cm oS eS w'
    unfold runCmd startThenJoin executionJoin
    cases h : (startCmd cm oS eS w').2 <;> simp [h]
  refine ⟨rfl, hjoin, ?_⟩
  intro shell script
  simp only [← hjoin]
  rfl

/-- C7: `RunShell` launches the shell executable itself with no arguments
and delivers the script text verbatim to the launched shell's standard
input. -/
theorem runShell_script_verbatim (c : Command) (shell script : String)
    (inh : List String) (w : World) :
    (c.RunShell shell script inh w).1.cmd.path = shell ∧
    (c.RunShell shell script inh w).1.cmd.args = [] ∧
    (c.RunShell shell script inh w).1.cmd.stdin = some script := by
  refine ⟨?_, ?_, rfl⟩
  · show (appendEnvironment (if c.dir.length > 0
      then { execCommand shell [] with dir := c.dir } else execCommand shell [])
      inh c.env).path = shell
    rw [appendEnvironment_path]
    split <;> rfl
  · show (appendEnvironment (if c.dir.length > 0
      then { execCommand shell [] with dir := c.dir } else execCommand shell [])
      inh c.env).args = []
    rw [appendEnvironment_args]
    split <;> rfl

/-- C9: a run started while a sink is unset writes that stream to the
process-wide standard stream, and the default is resolved at launch time:
a sink set on the command after construction but before launch is the one
the launch uses. -/
theorem default_sinks_resolved_at_launch (c : Command) (executable : String)
    (params inh : List String) (w : World) :
    (c.stdout = none →
      (c.RunExecutable executable params inh w).1.outSink = Sink.osStdout) ∧
    (c.stderr = none →
      (c.RunExecutable executable params inh w).1.errSink = Sink.osStderr) ∧
    (∀ s : Sink, ((c.Stdout s).RunExecutable executable params inh w).1.outSink = s) ∧
    (∀ s : Sink, ((c.Stderr s).RunExecutable executable params inh w).1.errSink = s) := by
  have ho : (c.RunExecutable executable params inh w).1.outSink
      = (prepareOut c.stdout c.stderr).1 := rfl
  have he : (c.RunExecutable executable params inh w).1.errSink
      = (prepareOut c.stdout c.stderr).2 := rfl
  refine ⟨?_, ?_, ?_, ?_⟩
  · intro h
    rw [ho]
    simp [prepareOut, h]
  · intro h
    rw [he]
    simp [prepareOut, h]
  · intro s
    show ((prepareOut (c.Stdout s).stdout (c.Stdout s).stderr).1 : Sink) = s
    simp [prepareOut, Command.Stdout]
  · intro s
    show ((prepareOut (c.Stderr s).stdout (c.Stderr s).stderr).2 : Sink) = s
    simp [prepareOut, Command.Stderr]

/-- Witness for C9: the zero-value command launches with the process-wide
standard stream, and a sink set just before launch is honored. -/
theorem default_sinks_witness :
    (Command.init.RunExecutable "ls" [] [] World.ok).1.outSink = Sink.osStdout ∧
    ((Command.init.Stdout (Sink.buffer 7)).RunExecutable "ls" [] [] World.ok).1.outSink
      = Sink.buffer 7 :=
  ⟨(default_sinks_resolved_at_launch Command.init "ls" [] [] World.ok).1 rfl,
   (default_sinks_resolved_at_launch Command.init "ls" [] [] World.ok).2.2.1 (Sink.buffer 7)⟩

/-- C8: for every observed line, the categories are tested in the
mapping's iteration order with case-sensitive substring patterns and the
first match updates the signal; a line matching no pattern leaves the
sticky signal unchanged (default `undefined`), and an empty mapping never
produces a category signal. -/
theorem classifier_first_match_sticky (mapping : List (String × List String))
    (line : String) (sig : ErrorCategory) :
    parseConsoleErrors [] line sig = sig ∧
    ((∀ p ∈ mapping, ∀ pat ∈ p.2, strContains line pat = false) →
      parseConsoleErrors mapping line sig = sig) ∧
    (∀ pre cat pats post, mapping = pre ++ (cat, pats) :: post →
      (∀ p ∈ pre, ∀ pat ∈ p.2, strContains line pat = false) →
      (∃ pat ∈ pats, strContains line pat = true) →
      parseConsoleErrors mapping line sig = categoryForLabel cat) ∧
    (∀ lines : List String, classifyLines [] lines = ErrorCategory.undefined) := by
  refine ⟨rfl, ?_, ?_, ?_⟩
  · intro hnone
    unfold parseConsoleErrors
    have hfind : mapping.find? (fun p => p.2.any (fun pat => strContains line pat)) = none := by
      rw [List.find?_eq_none]
      intro x hx
      rw [List.any_eq_true]
      rintro ⟨pat, hm, hc⟩
      rw [hnone x hx pat hm] at hc
      exact absurd hc (by simp)
    rw [hfind]
  · intro pre cat pats post hmap hpre hmatch
    unfold parseConsoleErrors
    rw [hmap, List.find?_append]
    have h1 : pre.find? (fun p => p.2.any (fun pat => strContains line pat)) = none := by
      rw [List.find?_eq_none]
      intro x hx
      rw [List.any_eq_true]
      rintro ⟨pat, hm, hc⟩
      rw [hpre x hx pat hm] at hc
      exact absurd hc (by simp)
    have h2 : ((cat, pats) :: post).find? (fun p => p.2.any (fun pat => strContains line pat))
        = some (cat, pats) := by
      apply List.find?_cons_of_pos
      rw [List.any_eq_true]
      exact hmatch
    rw [h1, Option.none_or, h2]
  · intro lines
    induction lines with
    | nil => rfl
    | cons l ls ih =>
      unfold classifyLines at ih ⊢
      rw [List.foldl_cons]
      exact ih

/-- Witness for C8, following the spec's classifier example and the test
table: `"bad config"` classifies the matching line as Configuration, a
later unrelated line does not reset the sticky signal, and in a two-entry
mapping the matching second category is selected. -/
theorem classifier_witness :
    parseConsoleErrors [("config", ["bad config"])] "this is a bad config error"
        ErrorCategory.undefined = ErrorCategory.configuration ∧
    parseConsoleErrors [("config", ["bad config"])] "an unrelated line"
        ErrorCategory.configuration = ErrorCategory.configuration ∧
    parseConsoleErrors
        [("config", ["configuration error 1", "configuration error 2"]),
         ("build", ["build failed"])] "the build failed" ErrorCategory.undefined
      = ErrorCategory.build :=
  ⟨(classifier_first_match_sticky [("config", ["bad config"])]
      "this is a bad config error" ErrorCategory.undefined).2.2.1 []
      "config" ["bad config"] [] rfl (by intro p hp; simp at hp)
      ⟨"bad config", by decide, by decide⟩,
   (classifier_first_match_sticky [("config", ["bad config"])]
      "an unrelated line" ErrorCategory.configuration).2.1 (by decide),
   (classifier_first_match_sticky
      [("config", ["configuration error 1", "configuration error 2"]),
       ("build", ["build failed"])] "the build failed" ErrorCategory.undefined).2.2.1
      [("config", ["configuration error 1", "configuration error 2"])]
      "build" ["build failed"] [] rfl (by decide)
      ⟨"build failed", by decide, by decide⟩⟩
